import Mathlib

/-!
Verification development for the Shot Production Pipeline of the
BigBanana-AI-Director repository (StageDirector component).

The TypeScript sources are shallowly embedded as executable Lean
definitions: pure helpers become Lean functions, the React handlers
become explicit state-transition functions over a `ProjectState`
value, and the asynchronous generation services are modelled by an
explicit `Except`-valued result passed to each handler (the handler
first performs its synchronous pre-call updates, then dispatches on
the service outcome, exactly mirroring the `await` structure of the
source).  JavaScript truthiness tests on optional strings are
modelled by `strTruthy` / `jsOr`.
-/

namespace BigBanana

/-- JavaScript string truthiness for an optional string field:
`undefined` and the empty string are falsy. -/
def strTruthy : Option String → Bool
  | none => false
  | some s => decide (s ≠ "")

/-- JavaScript `a || b` on strings: `a` unless it is empty. -/
def jsOr (a b : String) : String :=
  if a = "" then b else a

/-- JavaScript `a || b` where `a` is an optional string. -/
def jsOrOpt (a : Option String) (b : String) : String :=
  match a with
  | some s => jsOr s b
  | none => b

/-- Is `needle` a prefix of `hay` (character lists)? -/
def leadsWith : List Char → List Char → Bool
  | [], _ => true
  | _ :: _, [] => false
  | a :: as, b :: bs => a == b && leadsWith as bs

/-- First index at which `needle` occurs in `hay`, like JavaScript
`String.prototype.indexOf` (with `none` for `-1`). -/
def subIdx (needle : List Char) : List Char → Option Nat
  | [] => if leadsWith needle [] then some 0 else none
  | c :: t =>
    if leadsWith needle (c :: t) then some 0
    else (subIdx needle t).map (· + 1)

/-- JavaScript `hay.includes(needle)`. -/
def strContains (hay needle : String) : Bool :=
  (subIdx needle.data hay.data).isSome

/-- JavaScript `s.startsWith(pre)`. -/
def strStartsWith (s pre : String) : Bool :=
  leadsWith pre.data s.data

/-- ASCII lower-casing of one character (the camera-movement strings
this repository compares are ASCII, so this is the behaviour of
JavaScript `toLowerCase` on them). -/
def lowerChar (c : Char) : Char :=
  if 'A' ≤ c && c ≤ 'Z' then Char.ofNat (c.toNat + 32) else c

/-- ASCII lower-casing of a string. -/
def strLower (s : String) : String :=
  ⟨s.data.map lowerChar⟩

/-! ## Data model (src/types, as used by the StageDirector sources) -/

inductive KfStatus
  | pending
  | generating
  | completed
  | failed
deriving DecidableEq

inductive FrameType
  | fstart
  | fend
deriving DecidableEq

structure Keyframe where
  id : String
  type : FrameType
  visualPrompt : String
  imageUrl : Option String
  status : KfStatus
deriving DecidableEq

structure Interval where
  id : String
  startKeyframeId : String
  endKeyframeId : String
  duration : Nat
  motionStrength : Nat
  videoPrompt : Option String
  videoUrl : Option String
  status : KfStatus
deriving DecidableEq

structure Variation where
  id : String
  name : String
  referenceImage : Option String
deriving DecidableEq

structure Character where
  id : String
  referenceImage : Option String
  variations : List Variation
deriving DecidableEq

structure Scene where
  id : String
  referenceImage : Option String
deriving DecidableEq

structure ScriptData where
  scenes : List Scene
  characters : List Character
  visualStyle : Option String
  language : Option String
deriving DecidableEq

structure Shot where
  id : String
  sceneId : String
  actionSummary : String
  cameraMovement : String
  characters : List String
  characterVariations : List (String × String)
  keyframes : List Keyframe
  interval : Option Interval
  videoModel : Option String
deriving DecidableEq

structure ProjectState where
  shots : List Shot
  visualStyle : Option String
  language : Option String
  scriptData : Option ScriptData
deriving DecidableEq

/-- Lookup in the `characterVariations` map (`shot.characterVariations?.[charId]`). -/
def varLookup (m : List (String × String)) (k : String) : Option String :=
  (m.find? (fun p => decide (p.1 = k))).map (·.2)

/-! ## Camera-Movement Guide Table
(src/unnamed/part_001, `getCameraMovementCompositionGuide`) -/

/-- The fixed movement-type table: key, start-frame instruction,
end-frame instruction, in source order. -/
def cameraGuides : List (String × String × String) :=
  [ ("horizontal left shot",
     "Composition: Subject positioned on the right side of frame, with space on the left for movement.",
     "Composition: Subject moved to left side of frame, showing the journey from right to left."),
    ("horizontal right shot",
     "Composition: Subject positioned on the left side of frame, with space on the right for movement.",
     "Composition: Subject moved to right side of frame, showing the journey from left to right."),
    ("pan left shot",
     "Composition: Frame focused on right portion of scene, anticipating leftward pan.",
     "Composition: Frame reveals left portion of scene, completing the pan movement."),
    ("pan right shot",
     "Composition: Frame focused on left portion of scene, anticipating rightward pan.",
     "Composition: Frame reveals right portion of scene, completing the pan movement."),
    ("zoom in shot",
     "Composition: Wide establishing shot showing full scene context, subject smaller in frame.",
     "Composition: Tight close-up on subject, filling frame with detail and intimacy."),
    ("zoom out shot",
     "Composition: Close-up on subject, emphasizing details and emotion.",
     "Composition: Wide pullback revealing surrounding environment and context."),
    ("dolly shot",
     "Composition: Initial framing with subject at specific distance and perspective.",
     "Composition: Changed perspective with subject closer/further, revealing depth and space."),
    ("tilt up shot",
     "Composition: Camera angle pointing downward or level, capturing lower portion of subject.",
     "Composition: Camera tilted upward, revealing height and vertical expanse above."),
    ("tilt down shot",
     "Composition: Camera angle pointing upward or level, emphasizing upper portion.",
     "Composition: Camera tilted downward, revealing lower elements and ground level."),
    ("vertical up shot",
     "Composition: Lower vertical position, subject at bottom of frame or ground level.",
     "Composition: Elevated position, subject risen vertically showing upward movement."),
    ("vertical down shot",
     "Composition: Elevated vertical position, subject higher in frame.",
     "Composition: Lower position, subject descended showing downward movement."),
    ("tracking shot",
     "Composition: Subject in frame with forward/lateral space for tracking movement.",
     "Composition: Subject tracked through space, maintaining visual relationship."),
    ("circular shot",
     "Composition: Subject centered, camera at initial angle of circular path.",
     "Composition: Subject still centered, camera at opposite side revealing new angle."),
    ("360-degree circular shot",
     "Composition: Subject centered, camera beginning 360° orbit.",
     "Composition: Subject centered, camera completing full revolution from different angle."),
    ("low angle shot",
     "Composition: Low camera angle looking upward, emphasizing height and power.",
     "Composition: Maintained low angle, subject towering with dramatic perspective."),
    ("high angle shot",
     "Composition: High camera angle looking downward, creating overview perspective.",
     "Composition: Maintained high angle, emphasizing scale and spatial relationships."),
    ("bird's eye view shot",
     "Composition: Directly overhead view, showing layout and patterns from above.",
     "Composition: Continued overhead perspective, revealing changed spatial arrangement."),
    ("pov shot",
     "Composition: First-person perspective from character's viewpoint.",
     "Composition: Maintained POV, showing what character sees after movement/action."),
    ("over the shoulder shot",
     "Composition: Frame includes foreground character's shoulder, looking at subject.",
     "Composition: Maintained over-shoulder framing, possibly with shifted focus or angle."),
    ("handheld shot",
     "Composition: Dynamic handheld framing with natural movement and energy.",
     "Composition: Continued handheld aesthetic with organic repositioning."),
    ("static shot",
     "Composition: Fixed camera position, stable framing throughout.",
     "Composition: Same camera position, only subject movement within frame."),
    ("rotating shot",
     "Composition: Subject in frame, camera beginning rotational movement.",
     "Composition: Subject with changed orientation due to camera rotation."),
    ("slow motion shot",
     "Composition: Action captured at beginning of slow-motion sequence.",
     "Composition: Action progressed, emphasizing graceful movement detail."),
    ("parallel tracking shot",
     "Composition: Subject with camera tracking parallel alongside.",
     "Composition: Maintained parallel relationship, subject moved through space."),
    ("diagonal tracking shot",
     "Composition: Subject with camera on diagonal tracking path.",
     "Composition: Diagonal perspective maintained, dynamic spatial progression."),
    ("canted shot",
     "Composition: Tilted horizon line creating dutch angle, dynamic unease.",
     "Composition: Maintained or adjusted dutch angle, emphasizing disorientation."),
    ("cinematic dolly zoom",
     "Composition: Initial balanced framing before vertigo effect.",
     "Composition: Distorted perspective with foreground/background relationship altered.") ]

/-- Generic fallback instruction for the start frame. -/
def genericStartGuide : String :=
  "Composition: Initial frame composition suited for the camera movement."

/-- Generic fallback instruction for the end frame. -/
def genericEndGuide : String :=
  "Composition: Final frame composition showing the result of camera movement."

/-- The bidirectional-substring match the guide lookup uses for one
table entry: the lowercased movement contains the key, or the key
contains the movement. -/
def guideMatches (movement key : String) : Bool :=
  strContains movement key || strContains key movement

/-- The first matching table entry for a camera movement, if any. -/
def guideEntry (cameraMovement : String) : Option (String × String × String) :=
  cameraGuides.find? (fun e => guideMatches (strLower cameraMovement) e.1)

/-- The generic fallback instruction for a frame role. -/
def genericGuide : FrameType → String
  | FrameType.fstart => genericStartGuide
  | FrameType.fend => genericEndGuide

/-- Lookup of the composition guide for a camera movement and frame
role; first matching entry wins, generic fallback otherwise. -/
def getCameraMovementCompositionGuide (cameraMovement : String) (frameType : FrameType) : String :=
  match guideEntry cameraMovement with
  | some e => match frameType with
    | FrameType.fstart => e.2.1
    | FrameType.fend => e.2.2
  | none => genericGuide frameType

/-! ## Prompt Assembler (src/components/StageDirector/utils.ts and constants) -/

/-- Visual style table (`VISUAL_STYLE_PROMPTS` in the constants file). -/
def VISUAL_STYLE_PROMPTS : List (String × String) :=
  [ ("live-action", "photorealistic, cinematic film quality, real human actors, professional cinematography, natural lighting, 8K resolution"),
    ("anime", "Japanese anime style, cel-shaded, vibrant colors, expressive eyes, dynamic poses, Studio Ghibli/Makoto Shinkai quality"),
    ("2d-animation", "classic 2D animation, hand-drawn style, Disney/Pixar quality, smooth lines, expressive characters, painterly backgrounds"),
    ("3d-animation", "high-quality 3D CGI animation, Pixar/DreamWorks style, subsurface scattering, detailed textures, stylized characters"),
    ("cyberpunk", "cyberpunk aesthetic, neon-lit, rain-soaked streets, holographic displays, high-tech low-life, Blade Runner style"),
    ("oil-painting", "oil painting style, visible brushstrokes, rich textures, classical art composition, museum quality fine art") ]

/-- `VISUAL_STYLE_PROMPTS[visualStyle] || visualStyle`: unknown styles
pass through verbatim. -/
def lookupVisualStyle (style : String) : String :=
  match VISUAL_STYLE_PROMPTS.find? (fun p => decide (p.1 = style)) with
  | some p => jsOr p.2 style
  | none => style

/-- The section marker that `extractBasePrompt` truncates at. -/
def styleMarker : String := "\n\nVisual Style:"

/-- Keyframe prompt assembly (utils.ts `buildKeyframePrompt`): base
narrative, then the visual-style section, camera-movement line with
the composition guide, and the fixed technical-requirements block. -/
def buildKeyframePrompt (basePrompt visualStyle cameraMovement : String)
    (frameType : FrameType) : String :=
  let stylePrompt := lookupVisualStyle visualStyle
  let cameraGuide := getCameraMovementCompositionGuide cameraMovement frameType
  basePrompt ++
    (styleMarker ++
      (" " ++ stylePrompt ++ "\n\nCamera Movement: " ++ cameraMovement ++ " (" ++
        (match frameType with
          | FrameType.fstart => "Initial"
          | FrameType.fend => "Final") ++
        " frame)\n" ++ cameraGuide ++
        "\n\nVisual Requirements: High definition, cinematic composition, 16:9 widescreen format. Focus on lighting hierarchy, color saturation, and depth of field effects. Ensure the subject is clear and the background transitions naturally."))

/-- Extraction of the base narrative from a previously assembled
prompt (utils.ts `extractBasePrompt`): truncate at the first
occurrence of the visual-style marker when it is at a positive
index, else return the prompt itself (or the fallback when empty). -/
def extractBasePrompt (fullPrompt fallback : String) : String :=
  match subIdx styleMarker.data fullPrompt.data with
  | some i => if 0 < i then String.mk (fullPrompt.data.take i) else jsOr fullPrompt fallback
  | none => jsOr fullPrompt fallback

/-- One keyframe regeneration of the stored prompt, as
`handleGenerateKeyframe` performs it on an existing keyframe: the
base narrative is extracted from the previously assembled prompt
(with the action summary as fallback) and the layers are rebuilt. -/
def regenStep (actionSummary visualStyle cameraMovement : String) (ft : FrameType)
    (p : String) : String :=
  buildKeyframePrompt (extractBasePrompt p actionSummary) visualStyle cameraMovement ft

/-- JavaScript `String.prototype.replace` with a plain-string pattern:
replace the first occurrence only. -/
def replaceFirst (s pat repl : String) : String :=
  match subIdx pat.data s.data with
  | some i => String.mk (s.data.take i ++ repl.data ++ s.data.drop (i + pat.data.length))
  | none => s

/-- `VIDEO_PROMPT_TEMPLATES.sora2.chinese` from the constants file. -/
def soraTemplateChinese : String :=
  "基于提供的参考图片生成视频。\n\n动作描述：{actionSummary}\n\n技术要求：\n- 关键：视频必须从参考图片的精确构图和画面内容开始，自然展开后续动作\n- 镜头运动：{cameraMovement}\n- 运动：确保动作流畅自然，避免突兀的跳跃或不连续\n- 视觉风格：电影质感，全程保持一致的光照和色调\n- 细节：保持角色外观和场景环境的全程一致性\n- 语言：配音和字幕使用中文"

/-- `VIDEO_PROMPT_TEMPLATES.sora2.english` from the constants file. -/
def soraTemplateEnglish : String :=
  "Generate a video based on the provided reference image.\n\nAction Description: {actionSummary}\n\nTechnical Requirements:\n- CRITICAL: The video MUST begin with the exact composition and content of the reference image, then naturally develop the subsequent action\n- Camera Movement: {cameraMovement}\n- Motion: Ensure smooth and natural movement, avoid abrupt jumps or discontinuities\n- Visual Style: Cinematic quality with consistent lighting and color tone throughout\n- Details: Maintain character appearance and scene environment consistency throughout\n- Language: Use {language} for voiceover and subtitles"

/-- `VIDEO_PROMPT_TEMPLATES.veo.simple` from the constants file. -/
def veoTemplateSimple : String :=
  "{actionSummary}\n\n镜头运动：{cameraMovement}\n配音语言：使用{language}配音"

/-- Video prompt assembly (utils.ts `buildVideoPrompt`): two template
families keyed by video model, each with a Chinese and a
non-Chinese variant. -/
def buildVideoPrompt (actionSummary cameraMovement videoModel language : String) : String :=
  let isChinese := decide (language = "中文") || decide (language = "Chinese")
  if videoModel = "sora-2" then
    let template := if isChinese then soraTemplateChinese else soraTemplateEnglish
    replaceFirst (replaceFirst (replaceFirst template
      "{actionSummary}" actionSummary) "{cameraMovement}" cameraMovement) "{language}" language
  else
    replaceFirst (replaceFirst (replaceFirst veoTemplateSimple
      "{actionSummary}" actionSummary) "{cameraMovement}" cameraMovement) "{language}"
      (if isChinese then "中文" else language)

/-! ## Keyframe helpers (utils.ts) -/

/-- utils.ts `createKeyframe`. -/
def createKeyframe (id : String) (type : FrameType) (visualPrompt : String)
    (imageUrl : Option String := none) (status : KfStatus := KfStatus.pending) : Keyframe :=
  ⟨id, type, visualPrompt, imageUrl, status⟩

/-- utils.ts `updateKeyframeInShot`: replace the keyframe of the given
role in place, or append it when the shot has none of that role. -/
def updateKeyframeInShot (shot : Shot) (ty : FrameType) (keyframe : Keyframe) : Shot :=
  match shot.keyframes.findIdx? (fun k => decide (k.type = ty)) with
  | some i => { shot with keyframes := shot.keyframes.set i keyframe }
  | none => { shot with keyframes := shot.keyframes ++ [keyframe] }

/-! ## Reference Resolver (utils.ts `getRefImagesForShot`) -/

/-- The `if (x) referenceImages.push(x)` pattern: append an optional
image when it is truthy. -/
def pushTruthy (acc : List String) (img : Option String) : List String :=
  match img with
  | some r => if r = "" then acc else acc ++ [r]
  | none => acc

/-- The body of the `shot.characters.forEach` loop: append the
selected variation's reference image when one is selected and has an
image, otherwise fall back to the character's base reference image. -/
def charRefStep (sd : ScriptData) (shot : Shot) (acc : List String) (charId : String) : List String :=
  match sd.characters.find? (fun c => decide (c.id = charId)) with
  | none => acc
  | some char =>
    match varLookup shot.characterVariations charId with
    | some varId =>
      if varId = "" then pushTruthy acc char.referenceImage
      else match char.variations.find? (fun v => decide (v.id = varId)) with
        | some variation =>
          match variation.referenceImage with
          | some r => if r = "" then pushTruthy acc char.referenceImage else acc ++ [r]
          | none => pushTruthy acc char.referenceImage
        | none => pushTruthy acc char.referenceImage
    | none => pushTruthy acc char.referenceImage

/-- Ordered conditioning-image list for a shot: scene reference first,
then per attached character the selected variation's image or the
base image. -/
def getRefImagesForShot (shot : Shot) (scriptData : Option ScriptData) : List String :=
  match scriptData with
  | none => []
  | some sd =>
    let acc : List String := []
    let acc := match sd.scenes.find? (fun s => decide (s.id = shot.sceneId)) with
      | some scene => pushTruthy acc scene.referenceImage
      | none => acc
    shot.characters.foldl (charRefStep sd shot) acc

/-- An optional image normalized by truthiness: `none` for an absent
or empty image. -/
def optTruthy : Option String → Option String
  | some r => if r = "" then none else some r
  | none => none

/-- Spec reading of the scene part of the ordering: the scene's
reference image when present, else nothing. -/
def sceneRefSpec (shot : Shot) (sd : ScriptData) : List String :=
  match sd.scenes.find? (fun s => decide (s.id = shot.sceneId)) with
  | some scene => (optTruthy scene.referenceImage).toList
  | none => []

/-- Spec reading of one character's contribution: the selected
variation's reference image when a variation is selected and has
one, otherwise the character's base reference image; `none` when the
character has neither (or is unknown). -/
def charRefSpec (sd : ScriptData) (shot : Shot) (charId : String) : Option String :=
  match sd.characters.find? (fun c => decide (c.id = charId)) with
  | none => none
  | some char =>
    let base : Option String := optTruthy char.referenceImage
    match varLookup shot.characterVariations charId with
    | some varId =>
      if varId = "" then base
      else match char.variations.find? (fun v => decide (v.id = varId)) with
        | some variation =>
          match variation.referenceImage with
          | some r => if r = "" then base else some r
          | none => base
        | none => base
    | none => base

/-- The ordering stated by the spec: scene reference first, then each
attached character's image in shot order, skipping characters with
none; empty without script data; no de-duplication. -/
def refImagesSpec (shot : Shot) (scriptData : Option ScriptData) : List String :=
  match scriptData with
  | none => []
  | some sd => sceneRefSpec shot sd ++ shot.characters.filterMap (charRefSpec sd shot)

/-! ## Generation service interface -/

/-- Error carried by a rejected generation call; `apiKeyHandled`
records what the `onApiKeyError` credential handler returns for it. -/
structure GenError where
  message : String
  apiKeyHandled : Bool
deriving DecidableEq

/-- An image-generation request as dispatched by the keyframe
generator: prompt plus ordered reference images. -/
structure GenRequest where
  prompt : String
  referenceImages : List String
deriving DecidableEq

/-- A video-generation request: prompt, start image, optional end
image, model identifier. -/
structure VideoRequest where
  prompt : String
  startImage : String
  endImage : Option String
  model : String
deriving DecidableEq

/-! ## Keyframe Generator (index.tsx `handleGenerateKeyframe`) -/

/-- The start keyframe's image, if any
(`shot.keyframes?.find(k => k.type === 'start')?.imageUrl`). -/
def startImg (shot : Shot) : Option String :=
  (shot.keyframes.find? (fun k => decide (k.type = FrameType.fstart))).bind Keyframe.imageUrl

/-- The prompt `handleGenerateKeyframe` computes for a shot: the
existing keyframe's base prompt (extracted) or the action summary,
layered by `buildKeyframePrompt` with the resolved visual style. -/
def kfPromptFor (visualStyle : Option String) (scriptData : Option ScriptData)
    (shot : Shot) (ft : FrameType) : String :=
  let existingKf := shot.keyframes.find? (fun k => decide (k.type = ft))
  let basePrompt := match existingKf with
    | some kf =>
      if kf.visualPrompt = "" then shot.actionSummary
      else extractBasePrompt kf.visualPrompt shot.actionSummary
    | none => shot.actionSummary
  let vs := jsOrOpt visualStyle (jsOrOpt (scriptData.bind ScriptData.visualStyle) "live-action")
  buildKeyframePrompt basePrompt vs shot.cameraMovement ft

/-- The image-generation request `handleGenerateKeyframe` dispatches. -/
def kfGenRequest (visualStyle : Option String) (scriptData : Option ScriptData)
    (shot : Shot) (ft : FrameType) : GenRequest :=
  ⟨kfPromptFor visualStyle scriptData shot ft, getRefImagesForShot shot scriptData⟩

/-- The keyframe id a handler reuses or mints
(`existingKf?.id || generateId(...)`). -/
def kfIdFor (shot : Shot) (ft : FrameType) (freshId : String) : String :=
  match shot.keyframes.find? (fun k => decide (k.type = ft)) with
  | some kf => jsOr kf.id freshId
  | none => freshId

/-- The `updateProject` + `updateKeyframeInShot` pattern on the shots
list: replace the keyframe of the given role on the shot with the
given id. -/
def setKfInShots (shots : List Shot) (shotId : String) (ft : FrameType) (kf : Keyframe) : List Shot :=
  shots.map (fun s => if s.id = shotId then updateKeyframeInShot s ft kf else s)

/-- The same pattern lifted to the project state. -/
def setKfInProject (p : ProjectState) (shotId : String) (ft : FrameType) (kf : Keyframe) : ProjectState :=
  { p with shots := setKfInShots p.shots shotId ft kf }

/-- Outcome of one keyframe-generation invocation. -/
structure KfGenOutcome where
  project : ProjectState
  request : GenRequest
  alertMsg : Option String
deriving DecidableEq

/-- index.tsx `handleGenerateKeyframe`: store the new prompt with
status `generating`, dispatch the request, then store `completed`
with the returned image or `failed`; the handler catches its own
errors (alerting unless the credential handler reports them
handled) and never rethrows. -/
def handleGenerateKeyframe (project : ProjectState) (shot : Shot) (ft : FrameType)
    (freshId : String) (result : Except GenError String) : KfGenOutcome :=
  let kfId := kfIdFor shot ft freshId
  let prompt := kfPromptFor project.visualStyle project.scriptData shot ft
  let p1 := setKfInProject project shot.id ft (createKeyframe kfId ft prompt none KfStatus.generating)
  let req := kfGenRequest project.visualStyle project.scriptData shot ft
  match result with
  | .ok url =>
    ⟨setKfInProject p1 shot.id ft (createKeyframe kfId ft prompt (some url) KfStatus.completed),
      req, none⟩
  | .error e =>
    ⟨setKfInProject p1 shot.id ft (createKeyframe kfId ft prompt none KfStatus.failed), req,
      if e.apiKeyHandled then none else some ("生成失败: " ++ e.message)⟩

/-! ## Manual upload (index.tsx `handleUploadKeyframeImage`) -/

/-- Outcome of an upload attempt. -/
structure UploadOutcome where
  project : ProjectState
  alertMsg : Option String
deriving DecidableEq

/-- index.tsx `handleUploadKeyframeImage`: reject non-image files and
read failures with a message and no state change; otherwise create
or replace the keyframe as `completed` with the uploaded image,
keeping any existing visual prompt. -/
def handleUploadKeyframeImage (project : ProjectState) (shot : Shot) (ty : FrameType)
    (freshId : String) (fileType : String) (readResult : Except String String) : UploadOutcome :=
  if ¬ strStartsWith fileType "image/" then ⟨project, some "请选择图片文件！"⟩
  else
    match readResult with
    | .error _ => ⟨project, some "读取文件失败！"⟩
    | .ok base64Url =>
      let existingKf := shot.keyframes.find? (fun k => decide (k.type = ty))
      let kfId := kfIdFor shot ty freshId
      let visualPrompt := match existingKf with
        | some kf => jsOr kf.visualPrompt shot.actionSummary
        | none => shot.actionSummary
      ⟨setKfInProject project shot.id ty
          (createKeyframe kfId ty visualPrompt (some base64Url) KfStatus.completed), none⟩

/-! ## Video Generator (index.tsx `handleGenerateVideo`) -/

/-- Outcome of one video-generation invocation. -/
structure VideoOutcome where
  project : ProjectState
  request : Option VideoRequest
  alertMsg : Option String
deriving DecidableEq

/-- `eKf?.id || ''`. -/
def endIdOrEmpty : Option Keyframe → String
  | some kf => kf.id
  | none => ""

/-- The `updateShot(shot.id, s => ({...s, interval: ...}))` pattern:
transform only the target shot's interval. -/
def setIntervalInProject (p : ProjectState) (shotId : String)
    (f : Option Interval → Option Interval) : ProjectState :=
  { p with shots := p.shots.map (fun s =>
      if s.id = shotId then { s with interval := f s.interval } else s) }

/-- index.tsx `handleGenerateVideo`: rejected with a validation alert
and no state change when the start keyframe has no image; otherwise
builds the video prompt, marks the interval `generating`, dispatches
the request (end image only when the end keyframe has one), and
finishes `completed` with the clip URL or `failed`. -/
def handleGenerateVideo (project : ProjectState) (shot : Shot) (freshIntervalId : String)
    (result : Except GenError String) : VideoOutcome :=
  let sKf? := shot.keyframes.find? (fun k => decide (k.type = FrameType.fstart))
  let eKf? := shot.keyframes.find? (fun k => decide (k.type = FrameType.fend))
  match sKf? with
  | none => ⟨project, none, some "请先生成起始帧！"⟩
  | some sKf =>
    match sKf.imageUrl with
    | none => ⟨project, none, some "请先生成起始帧！"⟩
    | some simg =>
      if simg = "" then ⟨project, none, some "请先生成起始帧！"⟩
      else
        let selectedModel := jsOrOpt shot.videoModel "sora-2"
        let projectLanguage :=
          jsOrOpt project.language (jsOrOpt (project.scriptData.bind ScriptData.language) "中文")
        let videoPrompt :=
          buildVideoPrompt shot.actionSummary shot.cameraMovement selectedModel projectLanguage
        let intervalId := match shot.interval with
          | some itv => jsOr itv.id freshIntervalId
          | none => freshIntervalId
        let p1 := setIntervalInProject project shot.id (fun itv? => some (match itv? with
          | some itv => { itv with status := KfStatus.generating, videoPrompt := some videoPrompt }
          | none =>
            ⟨intervalId, sKf.id, endIdOrEmpty eKf?, 10, 5, some videoPrompt, none,
              KfStatus.generating⟩))
        let req : VideoRequest := ⟨videoPrompt, simg, eKf?.bind Keyframe.imageUrl, selectedModel⟩
        match result with
        | .ok videoUrl =>
          ⟨setIntervalInProject p1 shot.id (fun itv? => some (match itv? with
              | some itv => { itv with videoUrl := some videoUrl, status := KfStatus.completed }
              | none =>
                ⟨intervalId, sKf.id, endIdOrEmpty eKf?, 10, 5, some videoPrompt,
                  some videoUrl, KfStatus.completed⟩)),
            some req, none⟩
        | .error e =>
          ⟨setIntervalInProject p1 shot.id (fun itv? => match itv? with
              | some itv => some { itv with status := KfStatus.failed }
              | none => none),
            some req,
            if e.apiKeyHandled then none else some ("视频生成失败: " ++ e.message)⟩

/-! ## Continuity Linker (index.tsx `handleCopyPreviousEndFrame`) -/

/-- The previous shot's end keyframe, as the handler reads it. -/
def prevEndKf (shots : List Shot) (activeShotIndex : Nat) : Option Keyframe :=
  (shots[activeShotIndex - 1]?).bind
    (fun p => p.keyframes.find? (fun k => decide (k.type = FrameType.fend)))

/-- index.tsx `handleCopyPreviousEndFrame` on the shots list with the
active shot's index: copy the previous shot's completed end frame
(image and visual prompt) into the current shot's start keyframe as
`completed`; reject with a message when the previous end frame has
no image; no network call is involved. -/
def handleCopyPreviousEndFrameShots (shots : List Shot) (activeShotIndex : Nat)
    (freshId : String) : List Shot × Option String :=
  if activeShotIndex = 0 then (shots, none)
  else match shots[activeShotIndex]? with
  | none => (shots, none)
  | some activeShot =>
    match prevEndKf shots activeShotIndex with
    | none => (shots, some "上一个镜头还没有生成结束帧")
    | some prevEnd =>
      match prevEnd.imageUrl with
      | none => (shots, some "上一个镜头还没有生成结束帧")
      | some img =>
        if img = "" then (shots, some "上一个镜头还没有生成结束帧")
        else
          (setKfInShots shots activeShot.id FrameType.fstart
            (createKeyframe (kfIdFor activeShot FrameType.fstart freshId) FrameType.fstart
              prevEnd.visualPrompt prevEnd.imageUrl KfStatus.completed), none)

/-! ## Prompt editing (index.tsx `handleSaveEdit`, keyframe branch) -/

/-- Pure prompt mutation: set the visual prompt of the keyframe of the
given role on the given shot; no status change, no network call. -/
def handleSaveKeyframeEdit (project : ProjectState) (shotId : String)
    (frameType : FrameType) (value : String) : ProjectState :=
  { project with shots := project.shots.map (fun s =>
      if s.id = shotId then
        { s with keyframes := s.keyframes.map (fun kf =>
            if kf.type = frameType then { kf with visualPrompt := value } else kf) }
      else s) }

/-! ## Batch Orchestrator (index.tsx `handleBatchGenerateImages`) -/

/-- Truthiness of a shot's start-frame image. -/
def startImgTruthy (s : Shot) : Bool := strTruthy (startImg s)

/-- `allStartFramesGenerated` from index.tsx. -/
def allStartFramesGenerated (shots : List Shot) : Bool :=
  decide (shots ≠ []) && shots.all startImgTruthy

/-- Whether a shot's start keyframe exists and has status `completed`
(the spec's notion of a completed start keyframe). -/
def startCompleted (s : Shot) : Bool :=
  match s.keyframes.find? (fun k => decide (k.type = FrameType.fstart)) with
  | some kf => decide (kf.status = KfStatus.completed)
  | none => false

/-- The shot subset the batch processes: every shot in regenerate
mode, otherwise exactly the shots whose start frame has no image. -/
def batchShotsToProcess (p : ProjectState) : List Shot :=
  if allStartFramesGenerated p.shots then p.shots
  else p.shots.filter (fun s => ! startImgTruthy s)

/-- Outcome of a batch run: final state plus the generation requests
dispatched, in order. -/
structure BatchOutcome where
  project : ProjectState
  requests : List GenRequest
deriving DecidableEq

/-- The sequential batch loop. Because `handleGenerateKeyframe`
catches its own errors and never rejects, the loop's `catch` branch
(which would abort on a handled credential error) is unreachable in
the source, so every selected shot is visited. -/
def batchLoop (freshIds : Nat → String) (oracle : Nat → Except GenError String) :
    List Shot → Nat → ProjectState → List GenRequest → BatchOutcome
  | [], _, p, reqs => ⟨p, reqs⟩
  | shot :: rest, i, p, reqs =>
    let out := handleGenerateKeyframe p shot FrameType.fstart (freshIds i) (oracle i)
    batchLoop freshIds oracle rest (i + 1) out.project (reqs ++ [out.request])

/-- index.tsx `handleBatchGenerateImages`: pick the mode from
`allStartFramesGenerated` (asking for confirmation before a full
regenerate), build the subset, and process it strictly
sequentially. -/
def handleBatchGenerateImages (p : ProjectState) (confirmOverwrite : Bool)
    (freshIds : Nat → String) (oracle : Nat → Except GenError String) : BatchOutcome :=
  let isRegenerate := allStartFramesGenerated p.shots
  if isRegenerate && ! confirmOverwrite then ⟨p, []⟩
  else
    let shotsToProcess := batchShotsToProcess p
    if shotsToProcess.isEmpty then ⟨p, []⟩
    else batchLoop freshIds oracle shotsToProcess 0 p []

/-! ## Operation sequences and the keyframe invariant -/

/-- One user-invokable operation of the shot production pipeline, with
the nondeterministic service outcome made explicit. -/
inductive DirectorOp
  | genKf (shot : Shot) (ft : FrameType) (freshId : String) (result : Except GenError String)
  | uploadKf (shot : Shot) (ft : FrameType) (freshId : String) (fileType : String)
      (readResult : Except String String)
  | genVideo (shot : Shot) (freshIntervalId : String) (result : Except GenError String)
  | copyPrevEnd (activeShotIndex : Nat) (freshId : String)
  | editKfPrompt (shotId : String) (ft : FrameType) (value : String)

/-- State effect of one operation. -/
def applyDirectorOp (p : ProjectState) : DirectorOp → ProjectState
  | .genKf shot ft fid res => (handleGenerateKeyframe p shot ft fid res).project
  | .uploadKf shot ft fid ftype rres => (handleUploadKeyframeImage p shot ft fid ftype rres).project
  | .genVideo shot iid res => (handleGenerateVideo p shot iid res).project
  | .copyPrevEnd idx fid => { p with shots := (handleCopyPreviousEndFrameShots p.shots idx fid).1 }
  | .editKfPrompt sid ft v => handleSaveKeyframeEdit p sid ft v

/-- State after a sequence of operations. -/
def applyDirectorOps (p : ProjectState) (ops : List DirectorOp) : ProjectState :=
  ops.foldl applyDirectorOp p

/-- The keyframe invariant of one keyframe: `imageUrl` is defined
exactly when the status is `completed`. -/
def kfInv (kf : Keyframe) : Prop :=
  kf.imageUrl.isSome = true ↔ kf.status = KfStatus.completed

/-- The keyframe invariant of one shot. -/
def shotInv (s : Shot) : Prop :=
  ∀ kf ∈ s.keyframes, kfInv kf

/-- The keyframe invariant of a project. -/
def projInv (p : ProjectState) : Prop :=
  ∀ s ∈ p.shots, shotInv s

instance : DecidablePred kfInv := fun kf => by unfold kfInv; infer_instance

instance : DecidablePred shotInv := fun s => by unfold shotInv; infer_instance

instance : DecidablePred projInv := fun p => by unfold projInv; infer_instance

/-! ## Nine-Grid Decomposer (selection geometry and constants) -/

/-- `NINE_GRID.panelCount` from the constants file. -/
def ninePanelCount : Nat := 9

/-- `NINE_GRID.positionLabels` from the constants file, in row-major
order (left-to-right, top-to-bottom). -/
def ninePositionLabels : List String :=
  [ "左上 (Top-Left)", "中上 (Top-Center)", "右上 (Top-Right)",
    "左中 (Middle-Left)", "正中 (Center)", "右中 (Middle-Right)",
    "左下 (Bottom-Left)", "中下 (Bottom-Center)", "右下 (Bottom-Right)" ]

/-- A sub-rectangle of the composite image. -/
structure PanelRect where
  x : ℚ
  y : ℚ
  width : ℚ
  height : ℚ
deriving DecidableEq

/-- Modelled from the spec: the `selectPanel` crop of the nine-grid
composite is not under src/ (only the `NineGridPreview` selection UI
and the `NINE_GRID` constants are); per the spec it computes the
sub-rectangle at row = index div 3, column = index mod 3, each cell
occupying one-third of the composite's width and height. -/
def selectPanelRect (width height : ℚ) (panelIndex : Nat) : PanelRect :=
  ⟨(panelIndex % 3 : ℕ) * (width / 3), (panelIndex / 3 : ℕ) * (height / 3),
    width / 3, height / 3⟩

/-! ## Concrete scenario data used by claim witnesses -/

/-- A shot with no keyframes at all. -/
def bareShot : Shot := ⟨"s1", "sc1", "a lone figure waits", "static shot", [], [], [], none, none⟩

/-- A one-shot project around `bareShot`. -/
def bareProject : ProjectState := ⟨[bareShot], none, none, none⟩

/-- Completed end keyframe of the continuity-linking scenario. -/
def prevEndFrame : Keyframe :=
  ⟨"kf-s1-end", FrameType.fend, "prompt-end1", some "img://end1", KfStatus.completed⟩

/-- Shot whose end frame is completed with image "img://end1". -/
def shotWithEnd : Shot :=
  ⟨"s1", "sc1", "act one", "pan left shot", [], [], [prevEndFrame], none, none⟩

/-- The following shot, which has no start keyframe yet. -/
def shotNeedingStart : Shot :=
  ⟨"s2", "sc1", "act two", "pan left shot", [], [], [], none, none⟩

/-- A sample operation sequence exercising every keyframe operation. -/
def demoOps : List DirectorOp :=
  [ DirectorOp.genKf bareShot FrameType.fstart "kf-1" (Except.ok "img://1"),
    DirectorOp.genKf bareShot FrameType.fend "kf-2" (Except.error ⟨"overloaded", false⟩),
    DirectorOp.uploadKf bareShot FrameType.fend "kf-3" "image/png" (Except.ok "data:image/png;base64,xyz"),
    DirectorOp.editKfPrompt "s1" FrameType.fstart "a lone figure waits at dusk",
    DirectorOp.genVideo bareShot "int-1" (Except.ok "vid://1"),
    DirectorOp.copyPrevEnd 0 "kf-4" ]

/-- A second shot with no keyframes. -/
def bareShot2 : Shot := ⟨"s2b", "sc1", "second action", "pan right shot", [], [], [], none, none⟩

/-- A two-shot project in which no start frame exists yet, used to
exercise the batch loop. -/
def authBatchProject : ProjectState := ⟨[bareShot, bareShot2], none, none, none⟩

/-- An oracle whose first generation call fails with a credential
error that the `onApiKeyError` collaborator reports as handled, and
whose second call succeeds. -/
def authOracle : Nat → Except GenError String :=
  fun i => if i = 0 then Except.error ⟨"API key not valid", true⟩ else Except.ok "img://b"

/-- Fresh-id supply for batch runs. -/
def demoFreshIds : Nat → String := fun _ => "kf-fresh"

/-- An always-succeeding generation oracle. -/
def demoOracle : Nat → Except GenError String := fun _ => Except.ok "img://new"

/-- A completed start keyframe. -/
def completedStartKf : Keyframe :=
  ⟨"kf-sA-start", FrameType.fstart, "prompt-A", some "img://a", KfStatus.completed⟩

/-- A shot whose start frame is already completed. -/
def shotDone : Shot := ⟨"sA", "sc1", "act A", "zoom in shot", [], [], [completedStartKf], none, none⟩

/-- A shot still lacking its start frame. -/
def shotMissing : Shot := ⟨"sB", "sc1", "act B", "zoom out shot", [], [], [], none, none⟩

/-- A project with one completed and one missing start frame (so the
batch runs in fill-missing mode). -/
def mixedProject : ProjectState := ⟨[shotDone, shotMissing], none, none, none⟩

/-! ## Lemmas and claim theorems -/

theorem cameraGuides_instrs_nonempty : ∀ e ∈ cameraGuides, e.2.1 ≠ "" ∧ e.2.2 ≠ "" := by
  decide

theorem genericGuide_nonempty (ft : FrameType) : genericGuide ft ≠ "" := by
  cases ft <;> decide

/-- C8: for every movement string and frame role the camera-movement
guide lookup returns a non-empty composition instruction (it is a
total function), and when no table entry matches it returns the
generic instruction for that frame role. -/
theorem camera_guide_total_nonempty (m : String) (ft : FrameType) :
    getCameraMovementCompositionGuide m ft ≠ "" ∧
      (guideEntry m = none → getCameraMovementCompositionGuide m ft = genericGuide ft) := by
  constructor
  · unfold getCameraMovementCompositionGuide
    cases h : guideEntry m with
    | none => exact genericGuide_nonempty ft
    | some e =>
      have he := cameraGuides_instrs_nonempty e (List.mem_of_find?_eq_some h)
      cases ft
      · exact he.1
      · exact he.2
  · intro h
    unfold getCameraMovementCompositionGuide
    rw [h]

/-- Witness for C8 at a movement string that matches no table entry:
the guide still returns a (non-empty) instruction, namely the
generic one. -/
theorem camera_guide_total_nonempty_witness :
    getCameraMovementCompositionGuide "aerial flyover" FrameType.fstart ≠ "" ∧
      getCameraMovementCompositionGuide "aerial flyover" FrameType.fstart =
        genericGuide FrameType.fstart :=
  ⟨(camera_guide_total_nonempty "aerial flyover" FrameType.fstart).1,
    (camera_guide_total_nonempty "aerial flyover" FrameType.fstart).2 (by decide)⟩

/-- C10: matching is the bidirectional substring test
`movement.includes(key) || key.includes(movement)` on the lowercased
movement, so the empty movement string is contained in every key and
the guide returns the first table entry's instructions (those of
"horizontal left shot"), not the generic fallback. -/
theorem camera_guide_empty_movement_first_entry :
    guideMatches (strLower "") "horizontal left shot" = true ∧
      guideEntry "" = some ("horizontal left shot",
        "Composition: Subject positioned on the right side of frame, with space on the left for movement.",
        "Composition: Subject moved to left side of frame, showing the journey from right to left.") ∧
      getCameraMovementCompositionGuide "" FrameType.fstart =
        "Composition: Subject positioned on the right side of frame, with space on the left for movement." ∧
      getCameraMovementCompositionGuide "" FrameType.fend =
        "Composition: Subject moved to left side of frame, showing the journey from right to left." ∧
      getCameraMovementCompositionGuide "" FrameType.fstart ≠ genericStartGuide ∧
      getCameraMovementCompositionGuide "" FrameType.fend ≠ genericEndGuide := by
  refine ⟨by decide, by decide, by decide, by decide, by decide, by decide⟩

/-- C1: when the shot's start keyframe is absent or has no image,
video generation is rejected with the user-facing validation alert,
the whole project state (in particular the shot's interval) is left
unchanged, and no video-generation request is dispatched. -/
theorem video_generation_requires_completed_start (project : ProjectState) (shot : Shot)
    (freshIntervalId : String) (result : Except GenError String)
    (h : strTruthy (startImg shot) = false) :
    handleGenerateVideo project shot freshIntervalId result =
      ⟨project, none, some "请先生成起始帧！"⟩ := by
  unfold handleGenerateVideo
  unfold startImg at h
  cases hf : shot.keyframes.find? (fun k => decide (k.type = FrameType.fstart)) with
  | none => simp [hf]
  | some kf =>
    rw [hf] at h
    cases hu : kf.imageUrl with
    | none => simp [hf, hu]
    | some img =>
      have himg : img = "" := by
        simpa [strTruthy, hu] using h
      simp [hf, hu, himg]

/-- Witness for C1: on a shot with no keyframes at all, video
generation with a would-succeed service result is still rejected and
changes nothing. -/
theorem video_generation_requires_completed_start_witness :
    strTruthy (startImg bareShot) = false ∧
      handleGenerateVideo bareProject bareShot "int-1" (Except.ok "vid://1") =
        ⟨bareProject, none, some "请先生成起始帧！"⟩ :=
  ⟨by decide,
    video_generation_requires_completed_start bareProject bareShot "int-1"
      (Except.ok "vid://1") (by decide)⟩

/-- C7: for a valid index greater than 0 on a shot list whose
previous-end keyframe satisfies the data-model invariant (its image
is truthy exactly when it is completed), copying the previous end
frame succeeds exactly when that keyframe is completed — setting the
current shot's start keyframe to completed with precisely the
previous end frame's image and visual prompt — and otherwise leaves
the shot list unchanged apart from a user-facing message.  The
handler is a pure state transformation; it dispatches no request. -/
theorem copy_previous_end_frame_behaviour (shots : List Shot) (idx : Nat) (freshId : String)
    (hpos : 0 < idx) (hlt : idx < shots.length)
    (hwf : ∀ kf ∈ prevEndKf shots idx,
      strTruthy kf.imageUrl = decide (kf.status = KfStatus.completed)) :
    (∀ kf, prevEndKf shots idx = some kf → kf.status = KfStatus.completed →
        handleCopyPreviousEndFrameShots shots idx freshId =
          (setKfInShots shots (shots.get ⟨idx, hlt⟩).id FrameType.fstart
            (createKeyframe (kfIdFor (shots.get ⟨idx, hlt⟩) FrameType.fstart freshId)
              FrameType.fstart kf.visualPrompt kf.imageUrl KfStatus.completed), none))
    ∧ ((∀ kf ∈ prevEndKf shots idx, kf.status ≠ KfStatus.completed) →
        handleCopyPreviousEndFrameShots shots idx freshId =
          (shots, some "上一个镜头还没有生成结束帧")) := by
  have hidx : shots[idx]? = some (shots.get ⟨idx, hlt⟩) := by
    rw [List.getElem?_eq_getElem hlt, List.get_eq_getElem]
  constructor
  · intro kf hkf hcomp
    have himg := hwf kf (by simp [hkf])
    cases hu : kf.imageUrl with
    | none =>
      rw [hu] at himg
      simp [strTruthy, hcomp] at himg
    | some img =>
      have himg' : ¬ img = "" := by
        rw [hu] at himg
        simpa [strTruthy, hcomp] using himg
      unfold handleCopyPreviousEndFrameShots
      simp [hpos.ne', hidx, hkf, hu, himg']
  · intro hnc
    unfold handleCopyPreviousEndFrameShots
    cases hkf : prevEndKf shots idx with
    | none => simp [hpos.ne', hidx, hkf]
    | some kf =>
      have himg : strTruthy kf.imageUrl = false := by
        rw [hwf kf (by simp [hkf])]
        simp [hnc kf (by simp [hkf])]
      cases hu : kf.imageUrl with
      | none => simp [hpos.ne', hidx, hkf, hu]
      | some img =>
        have himg' : img = "" := by
          rw [hu] at himg
          simpa [strTruthy] using himg
        simp [hpos.ne', hidx, hkf, hu, himg']

/-- Witness for C7, the spec's continuity scenario: shot 1's end frame
is completed with "img://end1" and shot 2 has no start keyframe;
copying onto shot 2 sets its start keyframe to completed with that
image and prompt. -/
theorem copy_previous_end_frame_behaviour_witness :
    0 < 1 ∧
      handleCopyPreviousEndFrameShots [shotWithEnd, shotNeedingStart] 1 "kf-s2-start" =
        ([shotWithEnd,
          { shotNeedingStart with keyframes :=
            [⟨"kf-s2-start", FrameType.fstart, "prompt-end1", some "img://end1",
              KfStatus.completed⟩] }], none) := by
  refine ⟨by decide, ?_⟩
  have h := (copy_previous_end_frame_behaviour [shotWithEnd, shotNeedingStart] 1 "kf-s2-start"
    (by decide) (by decide) (by decide)).1 prevEndFrame (by decide) (by decide)
  exact h.trans (by decide)

theorem pushTruthy_eq (acc : List String) (img : Option String) :
    pushTruthy acc img = acc ++ (optTruthy img).toList := by
  cases img with
  | none => simp [pushTruthy, optTruthy]
  | some r =>
    by_cases hr : r = "" <;> simp [pushTruthy, optTruthy, hr]

theorem charRefStep_eq (sd : ScriptData) (shot : Shot) (acc : List String) (charId : String) :
    charRefStep sd shot acc charId = acc ++ (charRefSpec sd shot charId).toList := by
  unfold charRefStep charRefSpec
  cases hc : sd.characters.find? (fun c => decide (c.id = charId)) with
  | none => simp
  | some char =>
    cases hv : varLookup shot.characterVariations charId with
    | none => simp [pushTruthy_eq]
    | some varId =>
      by_cases hvid : varId = ""
      · simp [hvid, pushTruthy_eq]
      · cases hvar : char.variations.find? (fun v => decide (v.id = varId)) with
        | none => simp [hvid, hvar, pushTruthy_eq]
        | some variation =>
          cases hri : variation.referenceImage with
          | none => simp [hvid, hvar, hri, pushTruthy_eq]
          | some r =>
            by_cases hr : r = "" <;> simp [hvid, hvar, hri, hr, pushTruthy_eq, optTruthy]

theorem foldl_charRefStep (sd : ScriptData) (shot : Shot) :
    ∀ (l : List String) (a : List String),
      l.foldl (charRefStep sd shot) a = a ++ l.filterMap (charRefSpec sd shot) := by
  intro l
  induction l with
  | nil => intro a; simp
  | cons x xs ih =>
    intro a
    rw [List.foldl_cons, charRefStep_eq, ih]
    cases h : charRefSpec sd shot x <;> simp [List.filterMap_cons, h]

/-- C6: the resolved reference-image list equals the spec ordering:
the shot's scene reference image first (when truthy), then for each
character id in the shot's order the selected variation's image if
selected and available, else the character's base image, skipping
characters with neither; empty without script data.  The equality of
the two list constructions also shows no de-duplication happens. -/
theorem reference_resolver_ordering (shot : Shot) (scriptData : Option ScriptData) :
    getRefImagesForShot shot scriptData = refImagesSpec shot scriptData := by
  cases scriptData with
  | none => rfl
  | some sd =>
    show (let acc : List String := []
      let acc := match sd.scenes.find? (fun s => decide (s.id = shot.sceneId)) with
        | some scene => pushTruthy acc scene.referenceImage
        | none => acc
      shot.characters.foldl (charRefStep sd shot) acc) =
      sceneRefSpec shot sd ++ shot.characters.filterMap (charRefSpec sd shot)
    rw [foldl_charRefStep]
    cases hs : sd.scenes.find? (fun s => decide (s.id = shot.sceneId)) with
    | none => simp [sceneRefSpec, hs]
    | some scene => simp [sceneRefSpec, hs, pushTruthy_eq]

theorem updateKeyframeInShot_inv (s : Shot) (ty : FrameType) (kf : Keyframe)
    (hs : shotInv s) (hkf : kfInv kf) : shotInv (updateKeyframeInShot s ty kf) := by
  unfold updateKeyframeInShot
  cases h : s.keyframes.findIdx? (fun k => decide (k.type = ty)) with
  | some i =>
    intro k hk
    rcases List.mem_or_eq_of_mem_set hk with h1 | h2
    · exact hs k h1
    · exact h2 ▸ hkf
  | none =>
    intro k hk
    rcases List.mem_append.mp hk with h1 | h2
    · exact hs k h1
    · rw [List.mem_singleton.mp h2]; exact hkf

theorem setKfInShots_inv (shots : List Shot) (sid : String) (ft : FrameType) (kf : Keyframe)
    (h : ∀ s ∈ shots, shotInv s) (hkf : kfInv kf) :
    ∀ s ∈ setKfInShots shots sid ft kf, shotInv s := by
  intro s hs
  rcases List.mem_map.mp hs with ⟨t, ht, rfl⟩
  by_cases hid : t.id = sid
  · simpa [hid] using updateKeyframeInShot_inv t ft kf (h t ht) hkf
  · simpa [hid] using h t ht

theorem setKfInProject_inv (p : ProjectState) (sid : String) (ft : FrameType) (kf : Keyframe)
    (hkf : kfInv kf) (hp : projInv p) : projInv (setKfInProject p sid ft kf) := by
  intro s hs
  exact setKfInShots_inv p.shots sid ft kf hp hkf s hs

theorem handleGenerateKeyframe_inv (p : ProjectState) (shot : Shot) (ft : FrameType)
    (fid : String) (res : Except GenError String) (hp : projInv p) :
    projInv (handleGenerateKeyframe p shot ft fid res).project := by
  cases res with
  | ok url =>
    exact setKfInProject_inv _ _ _ _ (by simp [kfInv, createKeyframe])
      (setKfInProject_inv _ _ _ _ (by simp [kfInv, createKeyframe]) hp)
  | error e =>
    exact setKfInProject_inv _ _ _ _ (by simp [kfInv, createKeyframe])
      (setKfInProject_inv _ _ _ _ (by simp [kfInv, createKeyframe]) hp)

theorem handleUploadKeyframeImage_inv (p : ProjectState) (shot : Shot) (ty : FrameType)
    (fid ftype : String) (rres : Except String String) (hp : projInv p) :
    projInv (handleUploadKeyframeImage p shot ty fid ftype rres).project := by
  unfold handleUploadKeyframeImage
  split
  · exact hp
  · cases rres with
    | error e => exact hp
    | ok b => exact setKfInProject_inv _ _ _ _ (by simp [kfInv, createKeyframe]) hp

theorem projInv_map_keyframes_id (p : ProjectState) (f : Shot → Shot)
    (hf : ∀ s, (f s).keyframes = s.keyframes) (hp : projInv p) :
    projInv { p with shots := p.shots.map f } := by
  intro s hs
  rcases List.mem_map.mp hs with ⟨t, ht, rfl⟩
  intro k hk
  rw [hf t] at hk
  exact hp t ht k hk

theorem setIntervalInProject_inv (p : ProjectState) (sid : String)
    (f : Option Interval → Option Interval) (hp : projInv p) :
    projInv (setIntervalInProject p sid f) :=
  projInv_map_keyframes_id p _ (fun s => by by_cases h : s.id = sid <;> simp [h]) hp

theorem handleGenerateVideo_inv (p : ProjectState) (shot : Shot) (iid : String)
    (res : Except GenError String) (hp : projInv p) :
    projInv (handleGenerateVideo p shot iid res).project := by
  cases hf : shot.keyframes.find? (fun k => decide (k.type = FrameType.fstart)) with
  | none => simpa [handleGenerateVideo, hf] using hp
  | some sKf =>
    cases hu : sKf.imageUrl with
    | none => simpa [handleGenerateVideo, hf, hu] using hp
    | some simg =>
      by_cases hs : simg = ""
      · simpa [handleGenerateVideo, hf, hu, hs] using hp
      · cases res with
        | ok url =>
          simp only [handleGenerateVideo, hf, hu, hs, if_neg]
          exact setIntervalInProject_inv _ _ _ (setIntervalInProject_inv _ _ _ hp)
        | error e =>
          simp only [handleGenerateVideo, hf, hu, hs, if_neg]
          exact setIntervalInProject_inv _ _ _ (setIntervalInProject_inv _ _ _ hp)

theorem handleCopyPreviousEndFrameShots_inv (shots : List Shot) (idx : Nat) (fid : String)
    (h : ∀ s ∈ shots, shotInv s) :
    ∀ s ∈ (handleCopyPreviousEndFrameShots shots idx fid).1, shotInv s := by
  by_cases h0 : idx = 0
  · simpa [handleCopyPreviousEndFrameShots, h0] using h
  · cases ha : shots[idx]? with
    | none => simpa [handleCopyPreviousEndFrameShots, h0, ha] using h
    | some activeShot =>
      cases hpk : prevEndKf shots idx with
      | none => simpa [handleCopyPreviousEndFrameShots, h0, ha, hpk] using h
      | some prevEnd =>
        cases hu : prevEnd.imageUrl with
        | none => simpa [handleCopyPreviousEndFrameShots, h0, ha, hpk, hu] using h
        | some img =>
          by_cases hi : img = ""
          · simpa [handleCopyPreviousEndFrameShots, h0, ha, hpk, hu, hi] using h
          · have heq : (handleCopyPreviousEndFrameShots shots idx fid).1 =
                setKfInShots shots activeShot.id FrameType.fstart
                  (createKeyframe (kfIdFor activeShot FrameType.fstart fid) FrameType.fstart
                    prevEnd.visualPrompt prevEnd.imageUrl KfStatus.completed) := by
              simp [handleCopyPreviousEndFrameShots, h0, ha, hpk, hu, hi]
            rw [heq]
            exact setKfInShots_inv _ _ _ _ h (by simp [kfInv, createKeyframe, hu])

theorem handleSaveKeyframeEdit_inv (p : ProjectState) (sid : String) (ft : FrameType)
    (v : String) (hp : projInv p) : projInv (handleSaveKeyframeEdit p sid ft v) := by
  unfold handleSaveKeyframeEdit
  intro s hs
  rcases List.mem_map.mp hs with ⟨t, ht, rfl⟩
  by_cases hid : t.id = sid
  · rw [if_pos hid]
    intro k hk
    rcases List.mem_map.mp hk with ⟨k0, hk0, rfl⟩
    have hk0inv := hp t ht k0 hk0
    by_cases hty : k0.type = ft
    · simpa [hty, kfInv] using hk0inv
    · simpa [hty, kfInv] using hk0inv
  · rw [if_neg hid]
    exact hp t ht

theorem applyDirectorOp_inv (p : ProjectState) (op : DirectorOp) (hp : projInv p) :
    projInv (applyDirectorOp p op) := by
  cases op with
  | genKf shot ft fid res => exact handleGenerateKeyframe_inv p shot ft fid res hp
  | uploadKf shot ft fid ftype rres => exact handleUploadKeyframeImage_inv p shot ft fid ftype rres hp
  | genVideo shot iid res => exact handleGenerateVideo_inv p shot iid res hp
  | copyPrevEnd idx fid =>
    intro s hs
    exact handleCopyPreviousEndFrameShots_inv p.shots idx fid hp s hs
  | editKfPrompt sid ft v => exact handleSaveKeyframeEdit_inv p sid ft v hp

/-- C3: the data-model invariant — a keyframe's `imageUrl` is defined
exactly when its status is `completed` — is preserved by every
sequence of the pipeline operations (generate, upload,
copy-previous-end-frame, edit-prompt, and also video generation),
for every shot and every keyframe of the project. -/
theorem keyframe_image_iff_completed_invariant (p : ProjectState) (ops : List DirectorOp)
    (hp : projInv p) : projInv (applyDirectorOps p ops) := by
  induction ops generalizing p with
  | nil => exact hp
  | cons op rest ih => exact ih (applyDirectorOp p op) (applyDirectorOp_inv p op hp)

/-- Witness for C3: a concrete project with no keyframes satisfies the
invariant, and it still holds after a sequence exercising all
operations (a successful generate, a failed generate, an upload, a
prompt edit, a video generation and a continuity copy). -/
theorem keyframe_image_iff_completed_invariant_witness :
    projInv bareProject ∧ projInv (applyDirectorOps bareProject demoOps) :=
  ⟨by decide, keyframe_image_iff_completed_invariant bareProject demoOps (by decide)⟩

theorem kfgen_request_eq (p : ProjectState) (shot : Shot) (ft : FrameType) (fid : String)
    (res : Except GenError String) :
    (handleGenerateKeyframe p shot ft fid res).request =
      kfGenRequest p.visualStyle p.scriptData shot ft := by
  cases res <;> rfl

theorem kfgen_meta (p : ProjectState) (shot : Shot) (ft : FrameType) (fid : String)
    (res : Except GenError String) :
    (handleGenerateKeyframe p shot ft fid res).project.visualStyle = p.visualStyle ∧
      (handleGenerateKeyframe p shot ft fid res).project.scriptData = p.scriptData := by
  cases res <;> exact ⟨rfl, rfl⟩

theorem kfgen_shots_getElem (p : ProjectState) (shot : Shot) (ft : FrameType) (fid : String)
    (res : Except GenError String) (j : Nat) (s : Shot)
    (hj : p.shots[j]? = some s) (hid : s.id ≠ shot.id) :
    (handleGenerateKeyframe p shot ft fid res).project.shots[j]? = some s := by
  have hstep : ∀ (q : ProjectState) (kf : Keyframe), q.shots[j]? = some s →
      (setKfInProject q shot.id ft kf).shots[j]? = some s := by
    intro q kf hq
    show (setKfInShots q.shots shot.id ft kf)[j]? = some s
    unfold setKfInShots
    rw [List.getElem?_map, hq]
    simp [hid]
  cases res with
  | ok url => exact hstep _ _ (hstep _ _ hj)
  | error e => exact hstep _ _ (hstep _ _ hj)

theorem batchLoop_preserve (f : Nat → String) (o : Nat → Except GenError String) :
    ∀ (todo : List Shot) (i : Nat) (p : ProjectState) (reqs : List GenRequest) (j : Nat) (s : Shot),
      p.shots[j]? = some s → (∀ t ∈ todo, t.id ≠ s.id) →
      (batchLoop f o todo i p reqs).project.shots[j]? = some s := by
  intro todo
  induction todo with
  | nil =>
    intro i p reqs j s hj _
    simpa [batchLoop] using hj
  | cons t ts ih =>
    intro i p reqs j s hj hids
    simp only [batchLoop]
    exact ih (i + 1) _ _ j s
      (kfgen_shots_getElem p t FrameType.fstart (f i) (o i) j s hj
        (fun h => hids t (List.mem_cons_self t ts) h.symm))
      (fun t' ht' => hids t' (List.mem_cons_of_mem _ ht'))

theorem batchLoop_requests (f : Nat → String) (o : Nat → Except GenError String)
    (V : Option String) (SD : Option ScriptData) :
    ∀ (todo : List Shot) (i : Nat) (p : ProjectState) (reqs : List GenRequest),
      p.visualStyle = V → p.scriptData = SD →
      (batchLoop f o todo i p reqs).requests =
        reqs ++ todo.map (fun t => kfGenRequest V SD t FrameType.fstart) := by
  intro todo
  induction todo with
  | nil =>
    intro i p reqs _ _
    simp [batchLoop]
  | cons t ts ih =>
    intro i p reqs hV hSD
    simp only [batchLoop]
    rw [ih (i + 1) _ _ ((kfgen_meta p t FrameType.fstart (f i) (o i)).1.trans hV)
      ((kfgen_meta p t FrameType.fstart (f i) (o i)).2.trans hSD)]
    rw [kfgen_request_eq, hV, hSD]
    simp

/-- C5: in fill-missing mode (not all start frames generated) the
batch selects exactly the shots lacking a completed start keyframe,
dispatches one generation request per selected shot and none for any
other shot, and leaves every shot whose start keyframe is already
completed untouched; in regenerate-all mode it selects all shots.
The hypotheses state the data-model invariant for start keyframes
(completed exactly when the image is truthy) and distinct shot ids. -/
theorem batch_fill_missing_selection (p : ProjectState) (confirm : Bool)
    (f : Nat → String) (o : Nat → Except GenError String)
    (hWF : ∀ s ∈ p.shots, startCompleted s = startImgTruthy s)
    (hNodup : (p.shots.map Shot.id).Nodup) :
    (allStartFramesGenerated p.shots = false →
        batchShotsToProcess p = p.shots.filter (fun s => ! startCompleted s)
      ∧ (handleBatchGenerateImages p confirm f o).requests =
          (batchShotsToProcess p).map (fun t => kfGenRequest p.visualStyle p.scriptData t FrameType.fstart)
      ∧ ∀ (j : Nat) (s : Shot), p.shots[j]? = some s → startCompleted s = true →
          (handleBatchGenerateImages p confirm f o).project.shots[j]? = some s)
    ∧ (allStartFramesGenerated p.shots = true → batchShotsToProcess p = p.shots) := by
  constructor
  · intro hmode
    have hsel : batchShotsToProcess p = p.shots.filter (fun s => ! startImgTruthy s) := by
      simp [batchShotsToProcess, hmode]
    have hsel' : batchShotsToProcess p = p.shots.filter (fun s => ! startCompleted s) := by
      rw [hsel]
      exact List.filter_congr (fun s hs => by rw [hWF s hs])
    refine ⟨hsel', ?_, ?_⟩
    · by_cases hemp : (batchShotsToProcess p).isEmpty
      · have hnil : batchShotsToProcess p = [] := List.isEmpty_iff.mp hemp
        simp [handleBatchGenerateImages, hmode, hnil]
      · have hrun : handleBatchGenerateImages p confirm f o =
            batchLoop f o (batchShotsToProcess p) 0 p [] := by
          simp [handleBatchGenerateImages, hmode, hemp]
        rw [hrun, batchLoop_requests f o p.visualStyle p.scriptData _ 0 p [] rfl rfl]
        simp
    · intro j s hj hcomp
      have hsmem : s ∈ p.shots := List.getElem?_mem hj
      have hids : ∀ t ∈ batchShotsToProcess p, t.id ≠ s.id := by
        intro t ht heq
        rw [hsel] at ht
        have ht' := List.mem_filter.mp ht
        have hts : t = s :=
          List.inj_on_of_nodup_map hNodup ht'.1 hsmem heq
        rw [hts] at ht'
        rw [hWF s hsmem] at hcomp
        rw [hcomp] at ht'
        simp at ht'
      by_cases hemp : (batchShotsToProcess p).isEmpty
      · simpa [handleBatchGenerateImages, hmode, hemp] using hj
      · have hrun : handleBatchGenerateImages p confirm f o =
            batchLoop f o (batchShotsToProcess p) 0 p [] := by
          simp [handleBatchGenerateImages, hmode, hemp]
        rw [hrun]
        exact batchLoop_preserve f o _ 0 p [] j s hj hids
  · intro hmode
    simp [batchShotsToProcess, hmode]

/-- Witness for C5 on a project with one completed and one missing
start frame: fill-missing mode selects exactly the missing one,
issues exactly its request, and the completed shot is untouched. -/
theorem batch_fill_missing_selection_witness :
    (∀ s ∈ mixedProject.shots, startCompleted s = startImgTruthy s) ∧
      (mixedProject.shots.map Shot.id).Nodup ∧
      ((allStartFramesGenerated mixedProject.shots = false →
          batchShotsToProcess mixedProject =
            mixedProject.shots.filter (fun s => ! startCompleted s)
        ∧ (handleBatchGenerateImages mixedProject true demoFreshIds demoOracle).requests =
            (batchShotsToProcess mixedProject).map
              (fun t => kfGenRequest mixedProject.visualStyle mixedProject.scriptData t FrameType.fstart)
        ∧ ∀ (j : Nat) (s : Shot), mixedProject.shots[j]? = some s → startCompleted s = true →
            (handleBatchGenerateImages mixedProject true demoFreshIds demoOracle).project.shots[j]? = some s)
      ∧ (allStartFramesGenerated mixedProject.shots = true →
          batchShotsToProcess mixedProject = mixedProject.shots)) :=
  ⟨by decide, by decide,
    batch_fill_missing_selection mixedProject true demoFreshIds demoOracle (by decide) (by decide)⟩

/-- C4 (divergence witness): in the source, `handleGenerateKeyframe`
catches its own failures and never rejects, so the batch loop's
abort path for handled credential errors is dead code.  On a
two-shot batch whose first generation call fails with a handled
authorization error, the batch still dispatches the second shot's
request (two requests in total) and completes the second shot,
instead of aborting the batch after the first shot as specified. -/
theorem batch_continues_after_handled_auth_error :
    (handleBatchGenerateImages authBatchProject true demoFreshIds authOracle).requests.length = 2 ∧
      ((handleBatchGenerateImages authBatchProject true demoFreshIds authOracle).project.shots.map
        startCompleted) = [false, true] ∧
      ((handleBatchGenerateImages authBatchProject true demoFreshIds authOracle).project.shots.map
        startImg) = [none, some "img://b"] := by
  decide

/-- C9: the nine-grid panel-to-rectangle mapping is a pure function of
the panel index with row = index div 3 and column = index mod 3,
each cell spanning one-third of the composite's width and height; in
particular index 4 spans exactly the middle third in both
dimensions.  The embedded `NINE_GRID` constants confirm the
row-major layout: the label at index 4 is the center label. -/
theorem nine_grid_panel_mapping (w h : ℚ) :
    (∀ i : Nat, selectPanelRect w h i =
        ⟨(i % 3 : ℕ) * (w / 3), (i / 3 : ℕ) * (h / 3), w / 3, h / 3⟩)
    ∧ selectPanelRect w h 4 = ⟨w / 3, h / 3, w / 3, h / 3⟩
    ∧ (selectPanelRect w h 4).x + (selectPanelRect w h 4).width = 2 * (w / 3)
    ∧ (selectPanelRect w h 4).y + (selectPanelRect w h 4).height = 2 * (h / 3)
    ∧ ninePositionLabels.length = ninePanelCount
    ∧ ninePositionLabels[4]? = some "正中 (Center)" := by
  refine ⟨fun i => rfl, ?_, ?_, ?_, by decide, by decide⟩
  · show PanelRect.mk ((4 % 3 : ℕ) * (w / 3)) ((4 / 3 : ℕ) * (h / 3)) (w / 3) (h / 3) =
      ⟨w / 3, h / 3, w / 3, h / 3⟩
    norm_num
  · show ((4 % 3 : ℕ) * (w / 3) : ℚ) + w / 3 = 2 * (w / 3)
    norm_num
    ring
  · show ((4 / 3 : ℕ) * (h / 3) : ℚ) + h / 3 = 2 * (h / 3)
    norm_num
    ring

theorem leadsWith_append_self (n t : List Char) : leadsWith n (n ++ t) = true := by
  induction n with
  | nil => rfl
  | cons a as ih => simp [leadsWith, ih]

theorem leadsWith_of_long (n : List Char) : ∀ (h x : List Char), n.length ≤ h.length →
    leadsWith n (h ++ x) = leadsWith n h := by
  induction n with
  | nil => intro h x _; simp [leadsWith]
  | cons a as ih =>
    intro h x hl
    cases h with
    | nil => simp at hl
    | cons b bs =>
      simp only [List.cons_append, leadsWith, List.append_eq]
      rw [ih bs x (Nat.le_of_succ_le_succ hl)]

theorem leadsWith_drop (h : List Char) : ∀ (n x : List Char), h.length ≤ n.length →
    leadsWith n (h ++ x) = true → leadsWith (n.drop h.length) x = true := by
  induction h with
  | nil => intro n x _ hw; simpa using hw
  | cons b bs ih =>
    intro n x hl hw
    cases n with
    | nil => simp at hl
    | cons a as =>
      simp only [List.cons_append, leadsWith, Bool.and_eq_true] at hw
      simpa [List.drop_succ_cons] using ih as x (Nat.le_of_succ_le_succ hl) hw.2

theorem styleMarker_length : styleMarker.data.length = 15 := by decide

theorem styleMarker_no_border :
    ∀ k, k < 15 → 0 < k → leadsWith (styleMarker.data.drop k) styleMarker.data = false := by
  decide

theorem subIdx_cons_none (n : List Char) (c : Char) (t : List Char)
    (h : subIdx n (c :: t) = none) :
    leadsWith n (c :: t) = false ∧ subIdx n t = none := by
  cases hb : leadsWith n (c :: t) with
  | true =>
    rw [subIdx, if_pos hb] at h
    exact absurd h (by simp)
  | false =>
    rw [subIdx, if_neg (by simp [hb])] at h
    exact ⟨rfl, Option.map_eq_none'.mp h⟩

theorem subIdx_self (n r : List Char) (hn : n ≠ []) : subIdx n (n ++ r) = some 0 := by
  cases n with
  | nil => exact absurd rfl hn
  | cons a as =>
    have h := leadsWith_append_self (a :: as) r
    rw [List.cons_append] at h
    show subIdx (a :: as) (a :: (as ++ r)) = some 0
    rw [subIdx, if_pos h]

theorem subIdx_marker_append (r : List Char) :
    ∀ (b : List Char), b ≠ [] → subIdx styleMarker.data b = none →
      subIdx styleMarker.data (b ++ (styleMarker.data ++ r)) = some b.length := by
  intro b
  induction b with
  | nil => intro hb _; exact absurd rfl hb
  | cons c b' ih =>
    intro _ hnone
    obtain ⟨hlw1, hnone'⟩ := subIdx_cons_none _ _ _ hnone
    have hlw : leadsWith styleMarker.data ((c :: b') ++ (styleMarker.data ++ r)) = false := by
      cases hb2 : leadsWith styleMarker.data ((c :: b') ++ (styleMarker.data ++ r)) with
      | false => rfl
      | true =>
        exfalso
        by_cases hk : 15 ≤ (c :: b').length
        · rw [leadsWith_of_long _ _ _ (by rw [styleMarker_length]; exact hk)] at hb2
          rw [hlw1] at hb2
          simp at hb2
        · push_neg at hk
          have hk0 : 0 < (c :: b').length := by simp
          have h1 := leadsWith_drop (c :: b') styleMarker.data (styleMarker.data ++ r)
            (by rw [styleMarker_length]; exact Nat.le_of_lt hk) hb2
          rw [leadsWith_of_long _ _ _ (by rw [List.length_drop]; omega)] at h1
          rw [styleMarker_no_border (c :: b').length hk hk0] at h1
          simp at h1
    rw [List.cons_append] at hlw
    show subIdx styleMarker.data (c :: (b' ++ (styleMarker.data ++ r))) = some (b'.length + 1)
    rw [subIdx, if_neg (by simp [hlw])]
    cases b' with
    | nil =>
      show (subIdx styleMarker.data (styleMarker.data ++ r)).map (· + 1) = some 1
      rw [subIdx_self _ _ (by decide)]
      rfl
    | cons d b'' =>
      rw [ih (by simp) hnone']
      rfl

theorem extractBasePrompt_of_subIdx (s fb : String) (i : Nat)
    (hi : subIdx styleMarker.data s.data = some i) (hpos : 0 < i) :
    extractBasePrompt s fb = String.mk (s.data.take i) := by
  unfold extractBasePrompt
  simp only [hi]
  rw [if_pos hpos]

theorem extract_append (b t fb : String) (hb : b ≠ "")
    (hns : strContains b styleMarker = false) :
    extractBasePrompt (b ++ (styleMarker ++ t)) fb = b := by
  have hbd : b.data ≠ [] := by
    intro hd
    exact hb (String.ext (by rw [hd]))
  have hnone : subIdx styleMarker.data b.data = none := by
    unfold strContains at hns
    cases hsi : subIdx styleMarker.data b.data with
    | none => rfl
    | some i => rw [hsi] at hns; simp at hns
  have hdata : (b ++ (styleMarker ++ t)).data = b.data ++ (styleMarker.data ++ t.data) := by
    rw [String.data_append, String.data_append]
  have hmain : subIdx styleMarker.data (b ++ (styleMarker ++ t)).data = some b.data.length := by
    rw [hdata]
    exact subIdx_marker_append t.data b.data hbd hnone
  rw [extractBasePrompt_of_subIdx _ fb _ hmain (List.length_pos.mpr hbd)]
  rw [hdata, List.take_left]

set_option maxRecDepth 40000 in
/-- C2 counterexample: for the empty base narrative, extraction does
not recover the base — the assembled prompt begins with the style
marker at index 0, so `extractBasePrompt` returns the whole layered
prompt (`fullPrompt || fallback`) instead of the empty base. -/
theorem extract_base_prompt_empty_base_cex :
    extractBasePrompt (buildKeyframePrompt "" "anime" "static shot" FrameType.fstart) "fallback" ≠ ""
      ∧ extractBasePrompt (buildKeyframePrompt "" "anime" "static shot" FrameType.fstart) "fallback" =
        buildKeyframePrompt "" "anime" "static shot" FrameType.fstart := by
  constructor
  · decide
  · decide

/-- C2 (amended): for every non-empty base narrative that does not
itself contain the style marker, and every visual style, camera
movement and frame role, extracting the base prompt from the
assembled keyframe prompt recovers the original base narrative, so
regenerating the keyframe any number of times with the same action
summary and style reproduces the identical assembled prompt (no
re-layering onto an already-layered prompt). -/
theorem prompt_layering_idempotent_clean_base (b style cm act fb : String) (ft : FrameType)
    (hb : b ≠ "") (hns : strContains b styleMarker = false) :
    extractBasePrompt (buildKeyframePrompt b style cm ft) fb = b ∧
      ∀ n : Nat, (regenStep act style cm ft)^[n] (buildKeyframePrompt b style cm ft) =
        buildKeyframePrompt b style cm ft := by
  have hround : ∀ fb' : String, extractBasePrompt (buildKeyframePrompt b style cm ft) fb' = b := by
    intro fb'
    exact extract_append b _ fb' hb hns
  refine ⟨hround fb, ?_⟩
  intro n
  induction n with
  | zero => rfl
  | succ m ihm =>
    rw [Function.iterate_succ_apply', ihm]
    show buildKeyframePrompt
      (extractBasePrompt (buildKeyframePrompt b style cm ft) act) style cm ft = _
    rw [hround act]

/-- Witness for the amended C2 at a concrete clean base narrative. -/
theorem prompt_layering_idempotent_clean_base_witness :
    ("hero walks" ≠ "" ∧ strContains "hero walks" styleMarker = false) ∧
      (extractBasePrompt
          (buildKeyframePrompt "hero walks" "anime" "pan left shot" FrameType.fstart) "fb" =
        "hero walks" ∧
      ∀ n : Nat, (regenStep "the hero walks on" "anime" "pan left shot" FrameType.fstart)^[n]
          (buildKeyframePrompt "hero walks" "anime" "pan left shot" FrameType.fstart) =
        buildKeyframePrompt "hero walks" "anime" "pan left shot" FrameType.fstart) :=
  ⟨⟨by decide, by decide⟩,
    prompt_layering_idempotent_clean_base "hero walks" "anime" "pan left shot"
      "the hero walks on" "fb" FrameType.fstart (by decide) (by decide)⟩

end BigBanana
